import Mathlib

/-!
Verification development for the scandale pipeline (api/main.py and
scandale/aggregation.py): the ingestion, timestamping, correlated-storage
and verification operations, embedded shallowly, with theorems about the
stated data-integrity, ordering, error-handling and frame properties.
-/

namespace Scandale

/-- Python values as they occur in the pipeline payloads: strings and
dictionaries with string keys, which is the shape of scan_data mappings
and of the bodies accepted by the TimeStampToken creation endpoint. -/
inductive PyVal where
  | str (s : String)
  | pydict (entries : List (String × PyVal))

/-- Dictionary lookup, as Python indexing d[k] on a dict; none models the
KeyError or TypeError case (missing key, or indexing a non-dict). -/
def dictGet (v : PyVal) (k : String) : Option PyVal :=
  match v with
  | PyVal.str _ => none
  | PyVal.pydict es => (es.find? (fun e => e.1 == k)).map (fun e => e.2)

mutual

/-- Canonical byte form of a stored Python value (json.dumps style, double
quoted keys and values). The byte-identity invariant of the spec compares
the digested bytes against this form of the stored payload. -/
def serializePy : PyVal → String
  | PyVal.str s => "\x22" ++ s ++ "\x22"
  | PyVal.pydict es => "\x7b" ++ serializeEntries es ++ "\x7d"

/-- Canonical byte form of the entries of a dictionary. -/
def serializeEntries : List (String × PyVal) → String
  | [] => ""
  | [(k, v)] => "\x22" ++ k ++ "\x22: " ++ serializePy v
  | (k, v) :: es => "\x22" ++ k ++ "\x22: " ++ serializePy v ++ ", " ++ serializeEntries es

end

/-! ### A subset of ast.literal_eval

The TimeStampToken creation endpoint (api/main.py line 110) parses the raw
request body with ast.literal_eval. The following parser models the subset
of Python literal syntax that the endpoint relies on: single or double
quoted strings without escapes, and dictionaries with string keys. -/

/-- Skip blanks, as Python tokenization does between literal tokens. -/
def skipWs : List Char → List Char
  | [] => []
  | c :: cs => if c = ' ' then skipWs cs else c :: cs

/-- Read the rest of a quoted string literal up to the closing quote q;
none models the SyntaxError of an unterminated literal. -/
def parseStrLit (q : Char) : List Char → Option (String × List Char)
  | [] => none
  | c :: cs =>
    if c = q then some ("", cs)
    else
      match parseStrLit q cs with
      | some (s, rest) => some (String.mk (c :: s.data), rest)
      | none => none

mutual

/-- Parse one Python literal value (string or dictionary). The fuel
argument bounds nesting depth; literal_eval supplies enough fuel for any
input of the given length. -/
def parseVal : Nat → List Char → Option (PyVal × List Char)
  | 0, _ => none
  | Nat.succ fuel, cs =>
    match skipWs cs with
    | [] => none
    | c :: rest =>
      if c = '\x27' then
        (parseStrLit '\x27' rest).map (fun p => (PyVal.str p.1, p.2))
      else if c = '\x22' then
        (parseStrLit '\x22' rest).map (fun p => (PyVal.str p.1, p.2))
      else if c = '\x7b' then
        match skipWs rest with
        | '\x7d' :: rest2 => some (PyVal.pydict [], rest2)
        | cs2 =>
          match parseEntries fuel cs2 with
          | some (es, rest2) =>
            match skipWs rest2 with
            | '\x7d' :: rest3 => some (PyVal.pydict es, rest3)
            | _ => none
          | none => none
      else none

/-- Parse the comma separated key: value entries of a dictionary literal. -/
def parseEntries : Nat → List Char → Option (List (String × PyVal) × List Char)
  | 0, _ => none
  | Nat.succ fuel, cs =>
    match parseVal fuel cs with
    | some (PyVal.str k, rest) =>
      match skipWs rest with
      | ':' :: rest2 =>
        match parseVal fuel rest2 with
        | some (v, rest3) =>
          match skipWs rest3 with
          | ',' :: rest4 =>
            match parseEntries fuel rest4 with
            | some (es, rest5) => some ((k, v) :: es, rest5)
            | none => none
          | _ => some ([(k, v)], rest3)
        | none => none
      | _ => none
    | _ => none

end

/-- Evaluate a network supplied text as a Python literal expression, as
ast.literal_eval does on the decoded request body; none models the
ValueError or SyntaxError raised on anything that is not a literal. -/
def literal_eval (s : String) : Option PyVal :=
  match parseVal (s.length + 1) s.data with
  | some (v, rest) => if skipWs rest = [] then some v else none
  | none => none

/-! ### Data model and Correlation Store -/

/-- A ScanRecord row (the Item of api/main.py): surrogate id assigned at
persistence time, the caller supplied scan UUID correlating it with its
TimestampToken, and the structured scan_data payload mapping. -/
structure Item where
  id : Nat
  scan_uuid : String
  scan_data : PyVal

/-- A TimeStampToken row: the scan UUID and the opaque token bytes
returned by the TSA, held here as a string. -/
structure Tst where
  scan_uuid : String
  tst : String

/-- The Correlation Store state: the persisted ScanRecords and
TimeStampTokens. Writes are append only; no update or delete exists. -/
structure Store where
  items : List Item
  tsts : List Tst

/-- The store with no records, the initial state. -/
def emptyStore : Store := ⟨[], []⟩

namespace Crud

/-- Modelled from the spec: crud.get_tst is not under src (only its
callers in api/main.py are). The Correlation Store contract reads
getTimestampToken(correlationId) -> TimestampToken | NotFound; none is
the NotFound outcome. -/
def get_tst (db : Store) (scan_uuid : String) : Option Tst :=
  db.tsts.find? (fun t => t.scan_uuid == scan_uuid)

/-- Modelled from the spec: crud.get_items is not under src. The contract
reads getScanRecord(correlationId) -> ScanRecord | NotFound; none is the
NotFound outcome (the caller check_tst then reads the found record, the
db_item[0] of the source). -/
def get_items (db : Store) (scan_uuid : String) : Option Item :=
  db.items.find? (fun i => i.scan_uuid == scan_uuid)

/-- Modelled from the spec: crud.create_item is not under src. The
contract reads createScanRecord(correlationId, payload) -> ScanRecord,
append only, surrogate id assigned at persistence time. -/
def create_item (db : Store) (scan_uuid : String) (scan_data : PyVal) : Item × Store :=
  let it : Item := ⟨db.items.length, scan_uuid, scan_data⟩
  (it, ⟨db.items ++ [it], db.tsts⟩)

/-- Modelled from the spec: the record level write of crud.create_tst,
which is not under src. The contract reads
createTimestampToken(correlationId, token) -> TimestampToken, append
only; the source permits this creation independently of any ScanRecord. -/
def create_tst_record (db : Store) (scan_uuid : String) (tok : String) : Tst × Store :=
  let t : Tst := ⟨scan_uuid, tok⟩
  (t, ⟨db.items, db.tsts ++ [t]⟩)

/-- Modelled from the spec: crud.create_tst as called with the dictionary
evaluated from the request body. The stored fields scan_uuid and tst are
read from the dictionary; a missing or mistyped field raises (KeyError),
modelled by none. -/
def create_tst (db : Store) (data : PyVal) : Option (Tst × Store) :=
  match dictGet data "scan_uuid", dictGet data "tst" with
  | some (PyVal.str uuid), some (PyVal.str tok) => some (create_tst_record db uuid tok)
  | _, _ => none

end Crud

/-! ### API operations (api/main.py) -/

/-- Error outcomes of the API operations: an HTTPException with detail
(the NotFoundError of the spec), an exception escaping the handler
unhandled (parse or key errors have no handler in the source), a
ValidationError response (in the error taxonomy of the spec, never
produced by the embedded paths), and an IndexError. -/
inductive ApiError where
  | http404 (detail : String)
  | unhandledParse
  | keyError
  | validationError
  | indexError

namespace Api

/-- The data expression check_tst digests for verification, from
api/main.py line 152: db_item[0].scan_data["payload"]["row"] encoded as
UTF-8 — the row field alone, not the whole stored payload. It is some
only when the payload field holds a dictionary whose row entry is a
string; otherwise the source raises (KeyError or AttributeError). -/
def check_data (item : Item) : Option String :=
  match dictGet item.scan_data "payload" with
  | some p =>
    match dictGet p "row" with
    | some (PyVal.str s) => some s
    | _ => none
  | none => none

/-- The verification endpoint check_tst of api/main.py lines 139 to 154:
look up the TimeStampToken, then the Item, 404 on either missing; then
invoke the remote timestamper check on the stored token and the digested
data. The check argument models rfc3161ng RemoteTimestamper.check as a
function of the token and the data bytes. -/
def check_tst_result (check : String → String → Bool) (db : Store) (scan_uuid : String) :
    Except ApiError Bool :=
  match Crud.get_tst db scan_uuid with
  | none => Except.error (ApiError.http404 "TimeStampToken not found")
  | some db_tst =>
    match Crud.get_items db scan_uuid with
    | none => Except.error (ApiError.http404 "Item not found")
    | some db_item =>
      match check_data db_item with
      | none => Except.error ApiError.keyError
      | some data => Except.ok (check db_tst.tst data)

/-- The verification endpoint with the store threaded through: the source
body only reads (crud.get_tst, crud.get_items), so the store it leaves
behind is the store it was given. -/
def check_tst (check : String → String → Bool) (db : Store) (scan_uuid : String) :
    Except ApiError Bool × Store :=
  (check_tst_result check db scan_uuid, db)

/-- The TimeStampToken creation endpoint create_tst of api/main.py lines
106 to 117: evaluate the raw body with literal_eval (line 110, with no
surrounding handler, so a parse failure escapes unhandled), then persist
through crud.create_tst (a missing field likewise escapes unhandled). -/
def create_tst (body : String) (db : Store) : Except ApiError (Tst × Store) :=
  match literal_eval body with
  | none => Except.error ApiError.unhandledParse
  | some dict_data =>
    match Crud.create_tst db dict_data with
    | none => Except.error ApiError.keyError
    | some r => Except.ok r

/-- The Item creation endpoint create_item of api/main.py lines 95 to 98:
a validated ScanDataCreate is persisted through crud.create_item. -/
def create_item (scan_uuid : String) (scan_data : PyVal) (db : Store) : Item × Store :=
  Crud.create_item db scan_uuid scan_data

/-- The result record of the system information endpoint (the runtime
python_version field is environment data, outside the embedding). -/
structure SysInfo where
  version : String
  version_url : String

/-- Python str.split with a one character separator: every occurrence
splits, empty pieces kept, and the result is never the empty list. -/
def pySplit (sep : Char) : List Char → List String
  | [] => [""]
  | c :: cs =>
    let rest := pySplit sep cs
    if c = sep then "" :: rest
    else
      match rest with
      | r :: rs => String.mk (c :: r.data) :: rs
      | [] => [String.mk [c]]

/-- The system information endpoint system_info of api/main.py lines 168
to 184: split the version string on the dash; one part means a release
version, otherwise the source reads version[2], which raises IndexError
whenever the split has exactly two parts. -/
def system_info (version_string : String) : Except ApiError SysInfo :=
  let version := pySplit '-' version_string.data
  if version.length = 1 then
    Except.ok ⟨version.headD "",
      "https://github.com/scandale-project/scandale/tags/" ++ version.headD ""⟩
  else
    match version.get? 2 with
    | none => Except.error ApiError.indexError
    | some third =>
      Except.ok ⟨version.headD "" ++ " - " ++ third.drop 1,
        "https://github.com/scandale-project/scandale/commit/" ++ third.drop 1⟩

end Api

/-! ### Ingestion loop (scandale/aggregation.py) -/

/-- Failure modes of the Timestamp Client round trip, from the spec
taxonomy: network or transport failure, TSA rejection, malformed
response. -/
inductive TsError where
  | network
  | tsaRejected (reason : String)
  | malformedResponse

/-- Outcome of one iteration of the collecting behaviour: either the
iteration completed and the loop proceeds to the next receive with the
given store state, or an exception escaped the run body uncaught with the
store in the given state. -/
inductive StepOutcome where
  | continues (db : Store)
  | raises (e : TsError) (db : Store)

/-- The store state an iteration outcome leaves behind. -/
def StepOutcome.store : StepOutcome → Store
  | StepOutcome.continues db => db
  | StepOutcome.raises _ db => db

/-- One iteration of AggregationEngine.CollectingBehav.run
(scandale/aggregation.py lines 29 to 49). The receive with timeout is the
msg argument (none when no message arrived within 10 seconds); the RT
timestamp round trip is the timestamper argument. With no message the
body only prints and the loop continues. With a message, the body calls
the timestamper with the message body; the run body has no handler, so a
timestamper exception escapes the iteration. On success the body builds
the item dictionary and prints it, and does not write it to any store. -/
def runStep (timestamper : String → Except TsError String) (msg : Option String)
    (db : Store) : StepOutcome :=
  match msg with
  | none => StepOutcome.continues db
  | some body =>
    match timestamper body with
    | Except.error e => StepOutcome.raises e db
    | Except.ok _tst => StepOutcome.continues db

/-! ### Store executions -/

/-- The create operations of the store, as reachable through the API:
Item creation and TimeStampToken creation are independent operations. -/
inductive Op where
  | createItem (scan_uuid : String) (scan_data : PyVal)
  | createTst (scan_uuid : String) (tok : String)

/-- Run one create operation against the store. -/
def execOp (db : Store) : Op → Store
  | Op.createItem u d => (Crud.create_item db u d).2
  | Op.createTst u t => (Crud.create_tst_record db u t).2

/-- Run a sequence of create operations from a starting store state. -/
def execOps (ops : List Op) (db : Store) : Store :=
  ops.foldl execOp db

/-! ### Claim statements

Each of the following propositions states one spec claim verbatim over
the embedding, to be settled below. -/

/-- Byte-identity reading of the verification operation: the data that
check_tst digests (check_data, the expression of api/main.py line 152)
equals the canonical bytes of the whole stored payload mapping, rather
than a single field of it. -/
def checkDigestsFullPayloadClaim : Prop :=
  ∀ (item : Item) (s : String), Api.check_data item = some s →
    (dictGet item.scan_data "payload").map serializePy = some s

/-- Paired-store reading of the no-partial-writes claim: in every store
state reachable by the create operations from the empty store, a
ScanRecord exists for an identifier exactly when a TimeStampToken does. -/
def pairedStoreClaim : Prop :=
  ∀ (ops : List Op) (uuid : String),
    (Crud.get_items (execOps ops emptyStore) uuid).isSome
      = (Crud.get_tst (execOps ops emptyStore) uuid).isSome

/-- Containment reading of the failure-propagation claim: a message whose
timestamp request fails is dropped within its iteration and the loop
continues to the next receive with the store unchanged. -/
def droppedAndContinuesClaim : Prop :=
  ∀ (timestamper : String → Except TsError String) (body : String) (db : Store)
    (e : TsError), timestamper body = Except.error e →
    runStep timestamper (some body) db = StepOutcome.continues db

/-- Causal-ordering reading of the creation claim: in every store state
reachable by the create operations from the empty store, a
TimeStampToken for an identifier is present only when the ScanRecord
with that identifier is present too. -/
def tstOnlyAfterItemClaim : Prop :=
  ∀ (ops : List Op) (uuid : String),
    (Crud.get_tst (execOps ops emptyStore) uuid).isSome = true →
    (Crud.get_items (execOps ops emptyStore) uuid).isSome = true

/-! ### Theorems -/

/-- Auxiliary: a find? over a list with one element appended succeeds
whenever the appended element satisfies the test. -/
theorem find?_append_singleton_isSome (p : Tst → Bool) (l : List Tst) (t : Tst)
    (h : p t = true) : ((l ++ [t]).find? p).isSome = true := by
  induction l with
  | nil => simp [List.find?, h]
  | cons c cs ih =>
    cases hc : p c with
    | true => simp [List.find?, hc]
    | false => simpa [List.find?, hc] using ih

/-- C1 counterexample: the verification operation does not digest the
exact stored payload bytes. For the scenario record whose payload is the
mapping with row bound to X, check_tst digests the single field X while
the stored payload bytes are the serialized mapping, which differ. -/
theorem check_tst_not_full_payload_counterexample : ¬ checkDigestsFullPayloadClaim := by
  intro h
  exact absurd
    (h ⟨0, "abc-123", PyVal.pydict [("payload", PyVal.pydict [("row", PyVal.str "X")])]⟩
      "X" rfl)
    (by decide)

/-- C1 (amended): the verification operation recomputes the digest over
only the row field of the stored payload — whenever both records exist
and the payload mapping has a string row entry, check_tst invokes the
TSA check with exactly that string, not the whole payload. -/
theorem check_tst_digests_row_field_only
    (check : String → String → Bool) (db : Store) (uuid : String)
    (t : Tst) (item : Item) (p : PyVal) (s : String)
    (ht : Crud.get_tst db uuid = some t)
    (hi : Crud.get_items db uuid = some item)
    (hp : dictGet item.scan_data "payload" = some p)
    (hr : dictGet p "row" = some (PyVal.str s)) :
    Api.check_tst check db uuid = (Except.ok (check t.tst s), db) := by
  simp [Api.check_tst, Api.check_tst_result, Api.check_data, ht, hi, hp, hr]

/-- C1 witness: the amended theorem applied to the scenario store holding
the record abc-123 with payload row X and its token. -/
theorem check_tst_digests_row_field_only_witness :
    Api.check_tst (fun _ _ => true)
      ⟨[⟨0, "abc-123", PyVal.pydict [("payload", PyVal.pydict [("row", PyVal.str "X")])]⟩],
       [⟨"abc-123", "tok"⟩]⟩ "abc-123"
    = (Except.ok true,
      ⟨[⟨0, "abc-123", PyVal.pydict [("payload", PyVal.pydict [("row", PyVal.str "X")])]⟩],
       [⟨"abc-123", "tok"⟩]⟩) :=
  check_tst_digests_row_field_only (fun _ _ => true) _ "abc-123"
    ⟨"abc-123", "tok"⟩
    ⟨0, "abc-123", PyVal.pydict [("payload", PyVal.pydict [("row", PyVal.str "X")])]⟩
    (PyVal.pydict [("row", PyVal.str "X")]) "X" rfl rfl rfl rfl

/-- C2 counterexample: a store state holding one of the pair without the
other is reachable — creating only a TimeStampToken for abc leaves a
state with the token present and no ScanRecord. -/
theorem paired_store_counterexample : ¬ pairedStoreClaim := by
  intro h
  exact absurd (h [Op.createTst "abc" "t"] "abc") (by decide)

/-- C2 (amended): the ingestion loop itself performs no store writes at
all — every iteration leaves the store exactly as it found it — and
states holding a TimeStampToken without its ScanRecord are reachable
through the independent API create operations. -/
theorem pipeline_no_writes_and_partial_reachable :
    (∀ (timestamper : String → Except TsError String) (msg : Option String) (db : Store),
      (runStep timestamper msg db).store = db)
    ∧ (Crud.get_tst (execOps [Op.createTst "abc" "t"] emptyStore) "abc").isSome = true
    ∧ Crud.get_items (execOps [Op.createTst "abc" "t"] emptyStore) "abc" = none := by
  refine ⟨?_, rfl, rfl⟩
  intro timestamper msg db
  cases msg with
  | none => rfl
  | some body =>
    simp only [runStep]
    cases timestamper body with
    | error e => rfl
    | ok t => rfl

/-- C3: when either record is absent for the identifier, the verification
operation returns the 404 NotFoundError and never an ok verification
result, so the outcome is distinct from a negative verification. -/
theorem check_tst_absent_is_notfound
    (check : String → String → Bool) (db : Store) (uuid : String)
    (h : Crud.get_tst db uuid = none ∨ Crud.get_items db uuid = none) :
    ∃ detail, Api.check_tst_result check db uuid = Except.error (ApiError.http404 detail)
      ∧ ∀ b : Bool, Api.check_tst_result check db uuid ≠ Except.ok b := by
  rcases h with h | h
  · exact ⟨"TimeStampToken not found", by simp [Api.check_tst_result, h],
      fun b hb => by simp [Api.check_tst_result, h] at hb⟩
  · cases hgt : Crud.get_tst db uuid with
    | none =>
      exact ⟨"TimeStampToken not found", by simp [Api.check_tst_result, hgt],
        fun b hb => by simp [Api.check_tst_result, hgt] at hb⟩
    | some t =>
      exact ⟨"Item not found", by simp [Api.check_tst_result, hgt, h],
        fun b hb => by simp [Api.check_tst_result, hgt, h] at hb⟩

/-- C3 witness: verification of the identifier does-not-exist on the
empty store returns the 404 NotFoundError and no boolean result. -/
theorem check_tst_absent_is_notfound_witness :
    ∃ detail, Api.check_tst_result (fun _ _ => true) emptyStore "does-not-exist"
        = Except.error (ApiError.http404 detail)
      ∧ ∀ b : Bool,
        Api.check_tst_result (fun _ _ => true) emptyStore "does-not-exist" ≠ Except.ok b :=
  check_tst_absent_is_notfound (fun _ _ => true) emptyStore "does-not-exist" (Or.inl rfl)

/-- C4 counterexample: a message whose timestamp request fails is not
dropped-and-continued — with a timestamper that reports a network
failure, the iteration does not continue. -/
theorem timestamp_failure_not_dropped_counterexample : ¬ droppedAndContinuesClaim := by
  intro h
  have hc := h (fun _ => Except.error TsError.network) "m" emptyStore TsError.network rfl
  simp [runStep] at hc

/-- C4 (amended): a message whose timestamp request fails makes the
exception escape the run body uncaught — the iteration raises instead of
dropping the message and continuing, because the loop body has no
handler around the timestamp call. -/
theorem timestamp_failure_raises
    (timestamper : String → Except TsError String) (body : String) (db : Store)
    (e : TsError) (h : timestamper body = Except.error e) :
    runStep timestamper (some body) db = StepOutcome.raises e db := by
  simp only [runStep]
  rw [h]

/-- C4 witness: the amended theorem applied to a timestamper that
reports a network failure on the message m. -/
theorem timestamp_failure_raises_witness :
    runStep (fun _ => Except.error TsError.network) (some "m") emptyStore
      = StepOutcome.raises TsError.network emptyStore :=
  timestamp_failure_raises (fun _ => Except.error TsError.network) "m" emptyStore
    TsError.network rfl

/-- C5: the TimeStampToken creation endpoint evaluates its network body
as a Python literal expression — a single-quoted Python dictionary
literal, which no strict structured deserializer of the JSON family
accepts, is parsed and persisted successfully. -/
theorem create_tst_evaluates_python_literal :
    literal_eval "\x7b\x27tst\x27: \x27abc\x27, \x27scan_uuid\x27: \x27u1\x27\x7d"
        = some (PyVal.pydict [("tst", PyVal.str "abc"), ("scan_uuid", PyVal.str "u1")])
    ∧ Api.create_tst "\x7b\x27tst\x27: \x27abc\x27, \x27scan_uuid\x27: \x27u1\x27\x7d"
        emptyStore
        = Except.ok (⟨"u1", "abc"⟩, ⟨[], [⟨"u1", "abc"⟩]⟩) :=
  ⟨rfl, rfl⟩

/-- C6 counterexample: an execution of the create operations reaches a
state where a TimeStampToken exists before its ScanRecord — creating
only the token for u1 yields a state with the token and no record. -/
theorem tst_before_item_counterexample : ¬ tstOnlyAfterItemClaim := by
  intro h
  exact absurd (h [Op.createTst "u1" "tok1"] "u1" rfl) (by decide)

/-- C6 (amended): token creation enforces no ordering against the
ScanRecord — even on a store holding no ScanRecord for the identifier,
creating the token succeeds, reaching a state where the token is present
and the ScanRecord is still absent. -/
theorem create_tst_record_ignores_items (db : Store) (uuid tok : String)
    (h : Crud.get_items db uuid = none) :
    (Crud.get_tst (Crud.create_tst_record db uuid tok).2 uuid).isSome = true
    ∧ Crud.get_items (Crud.create_tst_record db uuid tok).2 uuid = none := by
  constructor
  · exact find?_append_singleton_isSome _ db.tsts ⟨uuid, tok⟩ (by simp)
  · exact h

/-- C6 witness: the amended theorem applied to the empty store and the
identifier u1. -/
theorem create_tst_record_ignores_items_witness :
    (Crud.get_tst (Crud.create_tst_record emptyStore "u1" "t").2 "u1").isSome = true
    ∧ Crud.get_items (Crud.create_tst_record emptyStore "u1" "t").2 "u1" = none :=
  create_tst_record_ignores_items emptyStore "u1" "t" rfl

/-- C7: verification is idempotent — running check_tst a second time on
the store the first call left behind yields the same result, and the
first call left the store unchanged (it only reads). -/
theorem check_tst_idempotent (check : String → String → Bool) (db : Store) (uuid : String) :
    (Api.check_tst check (Api.check_tst check db uuid).2 uuid).1
        = (Api.check_tst check db uuid).1
    ∧ (Api.check_tst check db uuid).2 = db :=
  ⟨rfl, rfl⟩

/-- C8: an iteration of the collecting behaviour in which no message
arrived within the receive timeout performs zero store writes and the
loop proceeds to the next receive. -/
theorem runStep_timeout_no_writes (timestamper : String → Except TsError String)
    (db : Store) : runStep timestamper none db = StepOutcome.continues db :=
  rfl

/-- C9: a request body that is not a valid Python literal makes the
TimeStampToken creation endpoint surface the parsing exception unhandled
— never a ValidationError response and never a clean ok. -/
theorem create_tst_unparsable_unhandled (body : String) (db : Store)
    (h : literal_eval body = none) :
    Api.create_tst body db = Except.error ApiError.unhandledParse
    ∧ Api.create_tst body db ≠ Except.error ApiError.validationError
    ∧ ∀ r, Api.create_tst body db ≠ Except.ok r := by
  refine ⟨?_, ?_, ?_⟩
  · simp [Api.create_tst, h]
  · simp [Api.create_tst, h]
  · intro r
    simp [Api.create_tst, h]

/-- C9 witness: the theorem applied to a body that is not a Python
literal, on the empty store. -/
theorem create_tst_unparsable_unhandled_witness :
    Api.create_tst "not a python literal" emptyStore = Except.error ApiError.unhandledParse
    ∧ Api.create_tst "not a python literal" emptyStore ≠ Except.error ApiError.validationError
    ∧ ∀ r, Api.create_tst "not a python literal" emptyStore ≠ Except.ok r :=
  create_tst_unparsable_unhandled "not a python literal" emptyStore rfl

/-- C10: every version string splitting on the dash into exactly two
parts makes the system information operation raise IndexError, since the
source reads the third part whenever the split has more than one. -/
theorem system_info_two_parts_index_error (v : String)
    (h : (Api.pySplit '-' v.data).length = 2) :
    Api.system_info v = Except.error ApiError.indexError := by
  have hnone : (Api.pySplit '-' v.data)[2]? = none := List.getElem?_eq_none (by omega)
  simp [Api.system_info, h, hnone]

/-- C10 witness: the development version string splits into two parts
and the system information operation raises IndexError on it. -/
theorem system_info_two_parts_index_error_witness :
    (Api.pySplit '-' "0.1.0-dev".data).length = 2
    ∧ Api.system_info "0.1.0-dev" = Except.error ApiError.indexError :=
  ⟨rfl, system_info_two_parts_index_error "0.1.0-dev" rfl⟩

end Scandale
